import Mathlib

/-!
Verification of the idempotent-resource-reconciliation logic of the
AWS DMS ingestion pipeline (bin/DMS.py, bin/RDS.py, bin/S3.py,
bin/utils.py, bin/delete_di.py).  Each remote AWS API is modelled as
explicit state passed to and returned by the embedded functions, and
the sequence of remote mutating calls a function issues is returned as
an explicit trace.
-/

namespace DmsPipeline

/-- Prefix test on character lists. -/
def listIsPref : List Char → List Char → Bool
  | [], _ => true
  | _ :: _, [] => false
  | a :: as, b :: bs => a == b && listIsPref as bs

/-- Occurrence test on character lists: does `pat` occur contiguously
inside the second list? -/
def listInfix (pat : List Char) : List Char → Bool
  | [] => listIsPref pat []
  | c :: rest => listIsPref pat (c :: rest) || listInfix pat rest

/-- Substring test: `strContains s pat` is true iff `pat` occurs in
`s`.  Implements the Python `pat in s` membership test used in the
source. -/
def strContains (s pat : String) : Bool :=
  listInfix pat.data s.data

/-- ASCII lower-casing of one character (the statuses compared in the
source are ASCII). -/
def lowerChar (c : Char) : Char :=
  if 65 ≤ c.toNat ∧ c.toNat ≤ 90 then Char.ofNat (c.toNat + 32) else c

/-- Python `str.lower()` on the ASCII status strings of the source. -/
def strLower (s : String) : String :=
  ⟨s.data.map lowerChar⟩

/-! ## Resource Ledger (bin/utils.py)

`run_data.json` is a JSON document with a `last_run` timestamp and a
`resources` mapping of resource-kind name to a flat mapping of string
keys to string-or-null values.  We embed it as association lists kept
in insertion order, matching Python `dict` update semantics. -/

/-- One resource record: string keys mapped to string-or-null values. -/
abbrev ResourceRecord := List (String × Option String)

/-- The ledger document persisted in `run_data.json`. -/
structure RunData where
  last_run : Option String
  resources : List (String × ResourceRecord)
deriving DecidableEq, Repr

/-- The default empty skeleton returned by `load_run_data` when the
file is absent or unparsable (utils.py lines 14-38). -/
def defaultRunData : RunData :=
  { last_run := none
    resources :=
      [ ("rds", [("instance_id", none), ("endpoint", none)])
      , ("s3", [("bucket_name", none), ("folder", none)])
      , ("iam", [("s3_role_arn", none), ("vpc_role_arn", none)])
      , ("dms", [("replication_instance_id", none), ("source_endpoint_id", none),
                 ("target_endpoint_id", none), ("replication_task_id", none)]) ] }

/-- State of the persisted ledger file: absent, present but not valid
JSON, or present with parsed contents. -/
inductive LedgerFile
  | absent
  | corrupt
  | parsed (d : RunData)
deriving DecidableEq, Repr

/-- `load_run_data` (utils.py lines 8-38): parse the file, and on
`FileNotFoundError` or `JSONDecodeError` return the default skeleton. -/
def load_run_data : LedgerFile → RunData
  | .parsed d => d
  | .absent => defaultRunData
  | .corrupt => defaultRunData

/-- `save_run_data` (utils.py lines 40-46): before writing, the
`last_run` field is overwritten with the current wall-clock timestamp
`now`; the result is the document persisted to disk. -/
def save_run_data (now : String) (d : RunData) : RunData :=
  { d with last_run := some now }

/-- Python `dict` single-key update: replace the value of the first
matching key in place, or append the pair if the key is absent. -/
def updateEntry (m : ResourceRecord) (k : String) (v : Option String) : ResourceRecord :=
  match m with
  | [] => [(k, v)]
  | (k', v') :: rest => if k' = k then (k, v) :: rest else (k', v') :: updateEntry rest k v

/-- Python `dict.update`: fold the single-key update over the pairs of
the update dictionary. -/
def updateRecord (m : ResourceRecord) (upd : ResourceRecord) : ResourceRecord :=
  upd.foldl (fun acc kv => updateEntry acc kv.1 kv.2) m

/-- Update of `run_data["resources"][rt]` (utils.py lines 61-66): the
resource type is inserted with an empty record if missing, then the
record is updated with the supplied pairs. -/
def setResource (rs : List (String × ResourceRecord)) (rt : String)
    (upd : ResourceRecord) : List (String × ResourceRecord) :=
  match rs with
  | [] => [(rt, updateRecord [] upd)]
  | (k, rec) :: rest =>
    if k = rt then (rt, updateRecord rec upd) :: rest
    else (k, rec) :: setResource rest rt upd

/-- The two shapes of argument accepted by `update_resource_data`: the
top-level `last_run` key with a string value, or a resource kind with a
dictionary of updates. -/
inductive UpdateArg
  | lastRunValue (v : Option String)
  | resource (rt : String) (upd : ResourceRecord)
deriving DecidableEq, Repr

/-- `update_resource_data` (utils.py lines 48-71): load the stored
ledger, apply the update, then `save_run_data` (which stamps
`last_run` with the save-time timestamp `now`).  Returns the persisted
document. -/
def update_resource_data (now : String) (arg : UpdateArg) (file : LedgerFile) : RunData :=
  let run_data := load_run_data file
  let run_data :=
    match arg with
    | .lastRunValue v => { run_data with last_run := v }
    | .resource rt upd => { run_data with resources := setResource run_data.resources rt upd }
  save_run_data now run_data

/-- `get_resource_data` (utils.py lines 73-94) restricted to a
`(resource_type, resource_key)` query: `None` when the resource type or
key is missing or the stored value is null. -/
def get_resource_data (d : RunData) (rt k : String) : Option String :=
  match d.resources.find? (fun p => p.1 = rt) with
  | none => none
  | some p =>
    match p.2.find? (fun q => q.1 = k) with
    | none => none
    | some q => q.2

/-! ## Replication-task start-type selection (bin/DMS.py lines 857-888)

`start_replication_task` inspects the task status (lower-cased) and,
for stopped tasks, the `StopReason` field, to choose the
`StartReplicationTaskType`; a running task is not started at all. -/

/-- The `StartReplicationTaskType` chosen by `start_replication_task`
from the observed status and stop reason; `none` means no start call is
issued (the task is already running). -/
def startTypeFor (status stopReason : String) : Option String :=
  if strLower status = "ready" then some "start-replication"
  else if strLower status = "stopped" then
    if strContains stopReason "FULL_LOAD_ONLY_FINISHED" then some "reload-target"
    else some "resume-processing"
  else if strLower status = "running" then none
  else some "start-replication"


/-! ## Task monitoring loop (bin/DMS.py lines 892-956)

After the start command, `start_replication_task` enters a `while True`
loop polling `describe_replication_tasks`: a missing task returns
`False`; `stopped` returns `True` when the stop reason contains
`FULL_LOAD_ONLY_FINISHED` and `False` otherwise; `failed` returns
`False`; every other status keeps polling. -/

/-- One observation of the monitored task: its `Status` and
`StopReason` fields; `none` when the task is absent from the remote
listing. -/
structure TaskObs where
  status : String
  stopReason : String
deriving DecidableEq, Repr

/-- One iteration of the monitoring loop body: `some b` is a `return b`
from `start_replication_task`, `none` continues polling. -/
def monitor_step (o : Option TaskObs) : Option Bool :=
  match o with
  | none => some false
  | some t =>
    if strLower t.status = "stopped" then
      if strContains t.stopReason "FULL_LOAD_ONLY_FINISHED" then some true
      else some false
    else if strLower t.status = "failed" then some false
    else none

/-- The monitoring loop run for `fuel` iterations starting at poll
index `k`; `none` means the loop is still polling after `fuel`
iterations (the source loop itself has no attempt bound). -/
def monitor_loop (obs : Nat → Option TaskObs) : Nat → Nat → Option Bool
  | 0, _ => none
  | fuel + 1, k =>
    match monitor_step (obs k) with
    | some b => some b
    | none => monitor_loop obs fuel (k + 1)

/-! ## Remote mutating calls

The trace alphabet of remote mutating AWS calls issued by the embedded
functions (describe/list/test calls are reads and are not traced). -/

/-- A remote mutating AWS API call. -/
inductive AwsCall
  | createDbInstance (id : String)
  | createBucket (name : String)
  | putObject (bucket key : String)
  | createReplicationInstance (id : String)
  | createEndpoint (id : String)
  | modifyEndpoint (arn : String)
  | deleteEndpoint (arn : String)
  | deleteConnection (instanceArn endpointArn : String)
  | stopReplicationTask (arn : String)
  | waitTaskStopped
  | modifyReplicationTask (arn : String)
  | deleteReplicationTask (arn : String)
  | createReplicationTask (id : String)
  | deleteReplicationInstance (arn : String)
deriving DecidableEq, Repr

/-! ## RDS instance reconciler (bin/RDS.py lines 30-103)

`create_rds_instance` derives the `DBInstanceIdentifier` from the
profile and the current wall-clock time formatted `%H-%M`; it reuses
the instance when `describe_db_instances` finds that identifier and
otherwise creates it, waits for availability, and persists the
identifier and endpoint to the ledger.  The remote RDS state is the
list of existing instance identifiers; the instance endpoint address
is modelled deterministically from the identifier. -/

/-- Result of one `create_rds_instance` invocation. -/
structure RdsCreateResult where
  ident : String
  endpoint : Option String
  calls : List AwsCall
  remote : List String
  ledger : RunData
deriving DecidableEq, Repr

/-- `create_rds_instance`: `time` is `datetime.now().strftime("%H-%M")`
at the moment of the call. -/
def create_rds_instance (now profile time : String) (remote : List String)
    (file : LedgerFile) : RdsCreateResult :=
  let dbid := profile ++ "-mssql-source-" ++ time
  let addr := dbid ++ ".rds.amazonaws.com:1433"
  if remote.contains dbid then
    { ident := dbid, endpoint := some addr, calls := [],
      remote := remote, ledger := load_run_data file }
  else
    { ident := dbid, endpoint := some addr,
      calls := [.createDbInstance dbid],
      remote := dbid :: remote,
      ledger := update_resource_data now
        (.resource "rds" [("instance_id", some dbid), ("endpoint", some addr)]) file }

/-! ## S3 bucket reconciler (bin/S3.py lines 28-75)

`create_s3_bucket` derives the bucket name from the account id and
region, reuses the bucket when `head_bucket` succeeds, and otherwise
creates it and persists the name to the ledger (the reuse path does
not write the ledger).  The remote S3 account state is the list of
existing bucket names. -/

/-- Result of one `create_s3_bucket` invocation. -/
structure S3BucketResult where
  bucket : Option String
  calls : List AwsCall
  ledger : RunData
deriving DecidableEq, Repr

/-- `create_s3_bucket` from bin/S3.py. -/
def create_s3_bucket (now accountId region : String) (buckets : List String)
    (file : LedgerFile) : S3BucketResult :=
  let bucket_name := "dms-target-" ++ accountId ++ "-" ++ region
  if buckets.contains bucket_name then
    { bucket := some bucket_name, calls := [], ledger := load_run_data file }
  else
    { bucket := some bucket_name, calls := [.createBucket bucket_name],
      ledger := update_resource_data now
        (.resource "s3" [("bucket_name", some bucket_name)]) file }

/-! ## DMS replication-instance reconciler (bin/DMS.py lines 102-197)

`create_replication_instance` reuses an existing instance found by
`describe_replication_instances` (returning its ARN without touching
the ledger) and otherwise creates one, waits for availability, and
persists id and ARN.  The remote DMS state is a list of
`(instance id, ARN)` pairs; the ARN of a newly created instance is
modelled deterministically from the identifier. -/

/-- Deterministic model of the ARN AWS assigns to a newly created
replication instance. -/
def replInstanceArnOf (instance_id : String) : String :=
  "arn:aws:dms:rep:" ++ instance_id

/-- Result of one `create_replication_instance` invocation. -/
structure ReplInstanceResult where
  arn : Option String
  calls : List AwsCall
  ledger : RunData
deriving DecidableEq, Repr

/-- `create_replication_instance` from bin/DMS.py. -/
def create_replication_instance (now profile : String)
    (remote : List (String × String)) (file : LedgerFile) : ReplInstanceResult :=
  let instance_id := profile ++ "-dms-instance"
  match remote.find? (fun p => p.1 = instance_id) with
  | some p => { arn := some p.2, calls := [], ledger := load_run_data file }
  | none =>
    let newArn := replInstanceArnOf instance_id
    { arn := some newArn,
      calls := [.createReplicationInstance instance_id],
      ledger := update_resource_data now
        (.resource "dms" [("replication_instance_id", some instance_id),
                          ("replication_instance_arn", some newArn)]) file }

/-! ## S3 target-endpoint reconciler (bin/DMS.py lines 36-99 and 277-421)

`check_s3_bucket_exists` verifies (creating if needed) the bucket and
the `dms-data/` folder object.  `create_target_endpoint` then diffs
the existing endpoint's `S3Settings` field-by-field against the
desired settings, modifies in place when they differ, falls back to
delete-and-recreate when the modify call fails, creates the endpoint
when absent, persists id/ARN to the ledger, and finally tests the
connection when a replication-instance ARN is recorded in the ledger
(`test_connection` unconditionally attempts `delete_connection` before
testing; its polling behaviour is modelled separately below, and here
only that mutating connection-deletion attempt is traced). -/

/-- Remote S3 state relevant to the target-endpoint setup: whether the
target bucket exists and whether some object under the `dms-data/`
prefix exists. -/
structure S3State where
  bucketExists : Bool
  folderObjectExists : Bool
deriving DecidableEq, Repr

/-- Result of `check_s3_bucket_exists`. -/
structure BucketCheckResult where
  ok : Bool
  s3 : S3State
  calls : List AwsCall
deriving DecidableEq, Repr

/-- `check_s3_bucket_exists` (bin/DMS.py lines 36-99), on the modelled
state (the permission-denied and unexpected-error paths return
`False` in the source and are outside the modelled remote state). -/
def check_s3_bucket_exists (bucket : String) (s3 : S3State) : BucketCheckResult :=
  if bucket = "" then { ok := false, s3 := s3, calls := [] }
  else if s3.bucketExists then
    if s3.folderObjectExists then { ok := true, s3 := s3, calls := [] }
    else { ok := true, s3 := { s3 with folderObjectExists := true },
           calls := [.putObject bucket "dms-data/empty.txt"] }
  else
    { ok := true, s3 := { bucketExists := true, folderObjectExists := true },
      calls := [.createBucket bucket, .putObject bucket "dms-data/empty.txt"] }

/-- A DMS endpoint as described remotely: its ARN and its `S3Settings`
key/value mapping. -/
structure DmsEndpoint where
  arn : String
  settings : List (String × String)
deriving DecidableEq, Repr

/-- The desired `S3Settings` of the target endpoint (bin/DMS.py lines
304-313); boolean values are rendered as strings. -/
def s3Settings (bucket roleArn : String) : List (String × String) :=
  [ ("BucketName", bucket), ("BucketFolder", "dms-data"),
    ("ServiceAccessRoleArn", roleArn), ("CsvRowDelimiter", "\n"),
    ("CsvDelimiter", ","), ("DataFormat", "csv"),
    ("AddColumnName", "true"), ("CompressionType", "NONE") ]

/-- Lookup in a string key/value mapping. -/
def lookupKV (m : List (String × String)) (k : String) : Option String :=
  (m.find? (fun p => p.1 = k)).map Prod.snd

/-- The `settings_changed` test (bin/DMS.py lines 348-352): some
desired key is missing from the current settings or carries a
different value. -/
def settingsDiffer (current desired : List (String × String)) : Bool :=
  desired.any (fun kv => !(lookupKV current kv.1 == some kv.2))

/-- Deterministic model of the ARN AWS assigns to a newly created
endpoint. -/
def targetEndpointArnOf (endpoint_id : String) : String :=
  "arn:aws:dms:endpoint:" ++ endpoint_id

/-- The reconcile step of `create_target_endpoint` on the described
endpoint: returns the resulting ARN, the mutating calls issued, and
the endpoint as it exists remotely afterwards. -/
def reconcileTargetEndpoint (modifyOk : Bool) (desired : List (String × String))
    (endpoint_id : String) : Option DmsEndpoint → String × List AwsCall × DmsEndpoint
  | some e =>
    if settingsDiffer e.settings desired then
      if modifyOk then (e.arn, [.modifyEndpoint e.arn], ⟨e.arn, desired⟩)
      else
        let newArn := targetEndpointArnOf endpoint_id
        (newArn, [.modifyEndpoint e.arn, .deleteEndpoint e.arn, .createEndpoint endpoint_id],
         ⟨newArn, desired⟩)
    else (e.arn, [], e)
  | none =>
    let newArn := targetEndpointArnOf endpoint_id
    (newArn, [.createEndpoint endpoint_id], ⟨newArn, desired⟩)

/-- Result of one `create_target_endpoint` invocation. -/
structure TargetEndpointResult where
  arn : Option String
  calls : List AwsCall
  s3 : S3State
  ep : Option DmsEndpoint
  ledger : RunData
deriving DecidableEq, Repr

/-- `create_target_endpoint` from bin/DMS.py.  `modifyOk` is whether
the `modify_endpoint` call succeeds when attempted; empty strings model
the Python falsy guard on `bucket_name` / `role_arn`. -/
def create_target_endpoint (now bucket roleArn : String) (modifyOk : Bool)
    (s3 : S3State) (ep : Option DmsEndpoint) (file : LedgerFile) : TargetEndpointResult :=
  if bucket = "" ∨ roleArn = "" then
    { arn := none, calls := [], s3 := s3, ep := ep, ledger := load_run_data file }
  else
    let chk := check_s3_bucket_exists bucket s3
    if !chk.ok then
      { arn := none, calls := chk.calls, s3 := chk.s3, ep := ep,
        ledger := load_run_data file }
    else
      let endpoint_id := "mforbush-s3-target"
      let desired := s3Settings bucket roleArn
      let step := reconcileTargetEndpoint modifyOk desired endpoint_id ep
      let ledger := update_resource_data now
        (.resource "dms" [("target_endpoint_id", some endpoint_id),
                          ("target_endpoint_arn", some step.1)]) file
      let connCalls : List AwsCall :=
        match get_resource_data ledger "dms" "replication_instance_arn" with
        | some ri => [.deleteConnection ri step.1]
        | none => []
      { arn := some step.1, calls := chk.calls ++ step.2.1 ++ connCalls,
        s3 := chk.s3, ep := some step.2.2, ledger := ledger }

/-! ## Replication-task reconciler (bin/DMS.py lines 423-637) and the
stale-task cleanup in `main` (bin/DMS.py lines 1004-1029)

`create_replication_task` diffs the endpoint/instance linkage and the
table mappings of an existing task; when either differs and the task
status is `running` or `starting`, the task is stopped and the
`replication_task_stopped` waiter is awaited before any modify or
delete.  Linkage changes force delete-and-recreate; table-mapping-only
changes use `modify_replication_task`, falling back to
delete-and-recreate when the modify call fails.  `main` separately
deletes every task whose source and target endpoint ARNs match the
current ones, without any status check or stop. -/

/-- A replication task as described remotely. -/
structure ReplTask where
  arn : String
  status : String
  sourceArn : String
  targetArn : String
  instanceArn : String
  tableMappings : String
deriving DecidableEq, Repr

/-- The desired task configuration passed to
`create_replication_task`. -/
structure TaskDesired where
  sourceArn : String
  targetArn : String
  instanceArn : String
  tableMappings : String
deriving DecidableEq, Repr

/-- The remote mutating calls issued by `create_replication_task`
given the described existing task (if any); `modifyOk` is whether the
`modify_replication_task` call succeeds when attempted. -/
def create_replication_task_calls (existing : Option ReplTask) (d : TaskDesired)
    (modifyOk : Bool) (task_id : String) : List AwsCall :=
  match existing with
  | none => [.createReplicationTask task_id]
  | some t =>
    let linkageChanged :=
      (t.sourceArn != d.sourceArn) || (t.targetArn != d.targetArn) ||
      (t.instanceArn != d.instanceArn)
    let settingsChanged := linkageChanged || (t.tableMappings != d.tableMappings)
    if settingsChanged then
      (if t.status = "running" ∨ t.status = "starting"
        then [.stopReplicationTask t.arn, .waitTaskStopped] else [])
      ++ (if linkageChanged then
            [.deleteReplicationTask t.arn, .createReplicationTask task_id]
          else if modifyOk then [.modifyReplicationTask t.arn]
          else [.modifyReplicationTask t.arn, .deleteReplicationTask t.arn,
                .createReplicationTask task_id])
    else []

/-- The stale-task cleanup in `DMS.main` (lines 1004-1029): every task
whose source and target endpoint ARNs match is deleted, with no status
check and no stop. -/
def main_task_cleanup_calls (tasks : List ReplTask) (srcArn tgtArn : String) :
    List AwsCall :=
  (tasks.filter (fun t => t.sourceArn == srcArn && t.targetArn == tgtArn)).map
    (fun t => AwsCall.deleteReplicationTask t.arn)

/-- Trace predicate: scanning the call list left to right, every
`modify_replication_task` or `delete_replication_task` call occurs only
after a confirmed stop (`waitTaskStopped`) has been seen. -/
def stopConfirmedBefore (seen : Bool) : List AwsCall → Bool
  | [] => true
  | c :: rest =>
    match c with
    | .waitTaskStopped => stopConfirmedBefore true rest
    | .modifyReplicationTask _ => seen && stopConfirmedBefore seen rest
    | .deleteReplicationTask _ => seen && stopConfirmedBefore seen rest
    | _ => stopConfirmedBefore seen rest

/-! ## Connection test prober (bin/DMS.py lines 639-830)

`test_connection(replication_instance_arn, endpoint_arn, max_retries)`
runs `max_retries + 1` outer rounds.  In each round, an S3 endpoint
with `SKIP_S3_CONNECTION_TEST` returns `True` before testing, as does
one with `ACCEPT_S3_CONNECTION_FAILURES`; otherwise the round polls
`describe_connections` at most `max_poll_attempts = 30` times:
`successful` returns `True`; `failed`/`deleting`/`deleted` returns
`True` for a tolerated S3 endpoint, breaks to the next round when
retries remain, and returns `False` on the last round; any other
status keeps polling; exhausting the 30 polls falls through to the
next round, and when the final round also times out the function
returns `False` — the same value as an explicit failure. -/

/-- Observed status of the connection test record. -/
inductive ConnStatus
  | successful
  | failed
  | deleting
  | deleted
  | testing
deriving DecidableEq, Repr

/-- How one polling round ends. -/
inductive RoundOutcome
  | success
  | failBreak
  | failFinal
  | timeout
deriving DecidableEq, Repr

/-- The fixed `max_poll_attempts` of the source (bin/DMS.py line
745). -/
def max_poll_attempts : Nat := 30

/-- One polling round of `test_connection`: `obs k` is the status
observed by the `k`-th `describe_connections` poll of this round; the
second component counts the polls performed. -/
def poll_round (isS3 accept lastRetry : Bool) (obs : Nat → ConnStatus) :
    Nat → Nat → RoundOutcome × Nat
  | 0, _ => (.timeout, 0)
  | fuel + 1, k =>
    match obs k with
    | .successful => (.success, 1)
    | .testing =>
      let r := poll_round isS3 accept lastRetry obs fuel (k + 1)
      (r.1, r.2 + 1)
    | _ =>
      ((if isS3 && accept then .success
        else if lastRetry then .failFinal
        else .failBreak), 1)

/-- The retry loop of `test_connection`: round `r` observes statuses
`obs r`; returns the boolean result together with the total number of
status polls performed. -/
def run_rounds (isS3 skipFlag accept : Bool) (obs : Nat → Nat → ConnStatus) :
    Nat → Nat → Bool × Nat
  | _, 0 => (false, 0)
  | r, remaining + 1 =>
    if isS3 && skipFlag then (true, 0)
    else if isS3 && accept then (true, 0)
    else
      let pr := poll_round isS3 accept (remaining == 0) (obs r) max_poll_attempts 0
      match pr.1 with
      | .success => (true, pr.2)
      | .failFinal => (false, pr.2)
      | _ =>
        let rest := run_rounds isS3 skipFlag accept obs (r + 1) remaining
        (rest.1, pr.2 + rest.2)

/-- `test_connection` from bin/DMS.py: result and total poll count. -/
def test_connection (isS3 skipFlag accept : Bool) (max_retries : Nat)
    (obs : Nat → Nat → ConnStatus) : Bool × Nat :=
  run_rounds isS3 skipFlag accept obs 0 (max_retries + 1)

/-- The target-endpoint connection gate of `DMS.main` (lines
1047-1104): with an S3 endpoint and `ACCEPT_S3_CONNECTION_FAILURES`
the test is skipped; otherwise up to three test attempts are made
(`a1`, `a2`, `a3`); on failure an S3 endpoint proceeds when the flag
is set or the operator answers yes, while a non-S3 endpoint aborts the
stage. -/
def dms_main_target_section (isS3 accept a1 a2 a3 userYes : Bool) : Bool :=
  let ok := if isS3 && accept then true else a1 || a2 || a3
  if ok then true
  else if isS3 then (if accept then true else userYes)
  else false

/-- The connection gates of `DMS.main` (lines 1031-1104): a failed
source connection test aborts the stage; then the target section
runs. -/
def dms_main_connection_gates (sourceOk isS3 accept a1 a2 a3 userYes : Bool) : Bool :=
  if !sourceOk then false
  else dms_main_target_section isS3 accept a1 a2 a3 userYes

/-! ## Teardown verification waits (bin/delete_di.py lines 162-383)

`delete_endpoints` first checks the replication-task listing and, when
non-empty, re-checks it for up to 180 seconds (one check per 15-second
sleep); on timeout it proceeds to delete every endpoint anyway.
`delete_replication_instances` does the same against the endpoint
listing before deleting replication instances.  The time-based bound
is modelled as a maximum number of in-loop checks. -/

/-- The bounded re-check loop: `obs k = true` means the `k`-th check
observed an empty listing; returns whether emptiness was observed and
the total number of checks performed. -/
def wait_until_empty (obs : Nat → Bool) : Nat → Nat → Bool × Nat
  | 0, k => (false, k)
  | fuel + 1, k => if obs k then (true, k + 1) else wait_until_empty obs fuel (k + 1)

/-- Result of one teardown stage: whether the prerequisite listing was
confirmed empty, how many checks ran, and the delete calls issued. -/
structure TeardownStage where
  confirmed : Bool
  checks : Nat
  calls : List AwsCall
deriving DecidableEq, Repr

/-- Common shape of `delete_endpoints` / `delete_replication_instances`:
an initial check, then the bounded re-check loop, then the deletes —
issued whether or not emptiness was confirmed. -/
def verify_then_delete (obs : Nat → Bool) (maxLoopChecks : Nat)
    (deletes : List AwsCall) : TeardownStage :=
  if obs 0 then { confirmed := true, checks := 1, calls := deletes }
  else
    let w := wait_until_empty obs maxLoopChecks 1
    { confirmed := w.1, checks := w.2, calls := deletes }

/-- `delete_endpoints` (bin/delete_di.py lines 162-280): wait on the
replication-task listing, then delete every endpoint. -/
def delete_endpoints (taskObs : Nat → Bool) (maxLoopChecks : Nat)
    (endpointArns : List String) : TeardownStage :=
  verify_then_delete taskObs maxLoopChecks
    (endpointArns.map (fun a => AwsCall.deleteEndpoint a))

/-- `delete_replication_instances` (bin/delete_di.py lines 282-383):
wait on the endpoint listing, then delete every replication
instance. -/
def delete_replication_instances (endpointObs : Nat → Bool) (maxLoopChecks : Nat)
    (instanceArns : List String) : TeardownStage :=
  verify_then_delete endpointObs maxLoopChecks
    (instanceArns.map (fun a => AwsCall.deleteReplicationInstance a))

/-- The list of check indices `k, k+1, ..., k+n-1` scanned by the
re-check loop. -/
def checkIdxs (k : Nat) : Nat → List Nat
  | 0 => []
  | n + 1 => k :: checkIdxs (k + 1) n

/-- The record stored under a resource type, or the empty record when
the type is absent (the shape `setResource` starts from). -/
def oldRecOf (rs : List (String × ResourceRecord)) (rt : String) : ResourceRecord :=
  match rs.find? (fun p => p.1 = rt) with
  | some p => p.2
  | none => []

/-! ## Theorems -/


/-- C1: for every task status observed before issuing a start, a
(case-insensitive) `ready` status selects `start-replication`; a
`stopped` status selects `reload-target` when the stop reason contains
`FULL_LOAD_ONLY_FINISHED` and `resume-processing` otherwise; a
`running` status issues no start call; any other status selects
`start-replication`. -/
theorem start_type_selection (status stopReason : String) :
    (strLower status = "ready" →
      startTypeFor status stopReason = some "start-replication") ∧
    (strLower status = "stopped" →
      strContains stopReason "FULL_LOAD_ONLY_FINISHED" = true →
      startTypeFor status stopReason = some "reload-target") ∧
    (strLower status = "stopped" →
      strContains stopReason "FULL_LOAD_ONLY_FINISHED" = false →
      startTypeFor status stopReason = some "resume-processing") ∧
    (strLower status = "running" → startTypeFor status stopReason = none) ∧
    (strLower status ≠ "ready" → strLower status ≠ "stopped" →
      strLower status ≠ "running" →
      startTypeFor status stopReason = some "start-replication") := by
  unfold startTypeFor
  refine ⟨fun h1 => ?_, fun h1 h2 => ?_, fun h1 h2 => ?_, fun h1 => ?_, fun h1 h2 h3 => ?_⟩
  · simp [h1]
  · rw [h1]; simp [h2]
  · rw [h1]; simp [h2]
  · rw [h1]; simp
  · rw [if_neg h1, if_neg h2, if_neg h3]

/-- C1 witness: the selection rule evaluated at one concrete input per
case. -/
theorem start_type_selection_cases :
    startTypeFor "Ready" "" = some "start-replication" ∧
    startTypeFor "stopped" "Stop Reason FULL_LOAD_ONLY_FINISHED" = some "reload-target" ∧
    startTypeFor "stopped" "Stop Reason RECOVERABLE_ERROR" = some "resume-processing" ∧
    startTypeFor "running" "" = none ∧
    startTypeFor "creating" "" = some "start-replication" :=
  ⟨(start_type_selection "Ready" "").1 (by decide),
   (start_type_selection "stopped" "Stop Reason FULL_LOAD_ONLY_FINISHED").2.1
     (by decide) (by decide),
   (start_type_selection "stopped" "Stop Reason RECOVERABLE_ERROR").2.2.1
     (by decide) (by decide),
   (start_type_selection "running" "").2.2.2.1 (by decide),
   (start_type_selection "creating" "").2.2.2.2 (by decide) (by decide) (by decide)⟩

/-- C8: loading an absent or unparsable ledger file returns the
default skeleton without failing: `last_run` is null and every resource
key under `rds`, `s3`, `iam` and `dms` is null. -/
theorem load_run_data_defaults :
    load_run_data .absent = defaultRunData ∧
    load_run_data .corrupt = defaultRunData ∧
    defaultRunData.last_run = none ∧
    (defaultRunData.resources.map Prod.fst) = ["rds", "s3", "iam", "dms"] ∧
    defaultRunData.resources.all (fun rec => rec.2.all (fun kv => kv.2 == none)) = true := by
  decide

/-- C9: every persist stamps `last_run` with the save-time timestamp:
`update_resource_data` on any argument leaves `last_run = now`, so a
caller-supplied `last_run` value different from `now` is never the
persisted value, and every resource update rewrites `last_run` as a
side effect. -/
theorem last_run_overwrite (now : String) (file : LedgerFile) :
    (∀ arg : UpdateArg, (update_resource_data now arg file).last_run = some now) ∧
    (∀ v : Option String, v ≠ some now →
      (update_resource_data now (.lastRunValue v) file).last_run ≠ v) := by
  constructor
  · intro arg
    cases arg <;> simp [update_resource_data, save_run_data]
  · intro v hv
    simp [update_resource_data, save_run_data]
    exact fun h => hv h.symm

/-- C9 witness: a concrete `last_run` update with a value different
from the save-time timestamp is not persisted, and a concrete resource
update rewrites `last_run`. -/
theorem last_run_overwrite_cases :
    (update_resource_data "2025-07-01T12:00:00" (.lastRunValue (some "1999-01-01"))
      .absent).last_run ≠ some "1999-01-01" ∧
    (update_resource_data "2025-07-01T12:00:00"
      (.resource "s3" [("bucket_name", some "b")]) .absent).last_run =
      some "2025-07-01T12:00:00" :=
  ⟨(last_run_overwrite "2025-07-01T12:00:00" .absent).2 (some "1999-01-01") (by decide),
   (last_run_overwrite "2025-07-01T12:00:00" .absent).1
     (.resource "s3" [("bucket_name", some "b")])⟩


/-- Auxiliary: once a confirmed stop has been seen, the rest of any
trace satisfies the stop-before-mutation scan. -/
theorem stopConfirmedBefore_of_seen (l : List AwsCall) :
    stopConfirmedBefore true l = true := by
  induction l with
  | nil => rfl
  | cons c rest ih => cases c <;> simp [stopConfirmedBefore, ih]

/-- Auxiliary: a trace beginning with a stop and its confirmation
satisfies the stop-before-mutation scan. -/
theorem stopConfirmedBefore_stop_wait (a : String) (l : List AwsCall) :
    stopConfirmedBefore false
      (AwsCall.stopReplicationTask a :: AwsCall.waitTaskStopped :: l) = true := by
  simp [stopConfirmedBefore, stopConfirmedBefore_of_seen]

/-- C4 (amended): in `create_replication_task`, when the existing task
is `running` or `starting`, every `modify_replication_task` or
`delete_replication_task` call in the issued trace comes after the
stop and its confirmed-stopped wait; by contrast the stale-task
cleanup in `DMS.main` issues only unconditional task deletions, with
no stop call at all. -/
theorem stop_before_mutation (t : ReplTask) (d : TaskDesired) (modifyOk : Bool)
    (task_id : String) :
    ((t.status = "running" ∨ t.status = "starting") →
      stopConfirmedBefore false
        (create_replication_task_calls (some t) d modifyOk task_id) = true) ∧
    (∀ (tasks : List ReplTask) (srcArn tgtArn : String),
      (main_task_cleanup_calls tasks srcArn tgtArn).all
        (fun c => match c with
          | .deleteReplicationTask _ => true
          | _ => false) = true) := by
  constructor
  · intro h
    simp only [create_replication_task_calls]
    rw [if_pos h]
    split
    all_goals first
      | rfl
      | (simp only [List.cons_append, List.nil_append]
         exact stopConfirmedBefore_stop_wait _ _)
  · intro tasks srcArn tgtArn
    rw [List.all_eq_true]
    intro c hc
    simp only [main_task_cleanup_calls, List.mem_map] at hc
    obtain ⟨t', _, rfl⟩ := hc
    rfl

/-- C4 witness: a running task whose source-endpoint linkage changed is
stopped and confirmed stopped before the delete and recreate. -/
theorem stop_before_mutation_case :
    stopConfirmedBefore false
      (create_replication_task_calls
        (some { arn := "arn-task", status := "running", sourceArn := "src-A",
                targetArn := "tgt-A", instanceArn := "ri-A", tableMappings := "tm" })
        { sourceArn := "src-B", targetArn := "tgt-A", instanceArn := "ri-A",
          tableMappings := "tm" } true "task-1") = true :=
  (stop_before_mutation
    { arn := "arn-task", status := "running", sourceArn := "src-A",
      targetArn := "tgt-A", instanceArn := "ri-A", tableMappings := "tm" }
    { sourceArn := "src-B", targetArn := "tgt-A", instanceArn := "ri-A",
      tableMappings := "tm" } true "task-1").1 (Or.inl rfl)

/-- C4 counterexample: the stale-task cleanup in `DMS.main` deletes a
task whose observed status is `running` without issuing any stop, so a
delete of a running task precedes its confirmed stop. -/
theorem running_task_deleted_without_stop :
    (let t : ReplTask :=
      { arn := "arn-task", status := "running", sourceArn := "src-A",
        targetArn := "tgt-A", instanceArn := "ri-A", tableMappings := "tm" }
     t.status = "running" ∧
     main_task_cleanup_calls [t] "src-A" "tgt-A" =
       [AwsCall.deleteReplicationTask "arn-task"] ∧
     stopConfirmedBefore false (main_task_cleanup_calls [t] "src-A" "tgt-A") = false) := by
  decide

/-- C10: the monitoring loop of `start_replication_task` has no
attempt bound: when every observation keeps the loop polling it never
returns within any number of iterations; it can only return at an
iteration whose observation is terminal; and an observation is
non-terminal exactly when the task is present with a status that is
neither `stopped` nor `failed` (case-insensitively). -/
theorem monitor_loop_unbounded (obs : Nat → Option TaskObs) :
    ((∀ k, monitor_step (obs k) = none) →
      ∀ fuel start, monitor_loop obs fuel start = none) ∧
    (∀ fuel start b, monitor_loop obs fuel start = some b →
      ∃ k, start ≤ k ∧ k < start + fuel ∧ monitor_step (obs k) ≠ none) ∧
    (∀ o : Option TaskObs, monitor_step o = none ↔
      ∃ t, o = some t ∧ strLower t.status ≠ "stopped" ∧ strLower t.status ≠ "failed") := by
  refine ⟨fun h fuel => ?_, fun fuel => ?_, fun o => ?_⟩
  · induction fuel with
    | zero => intro start; rfl
    | succ n ih => intro start; simp only [monitor_loop, h start]; exact ih (start + 1)
  · induction fuel with
    | zero => intro start b hb; simp [monitor_loop] at hb
    | succ n ih =>
      intro start b hb
      simp only [monitor_loop] at hb
      cases hstep : monitor_step (obs start) with
      | some b' => exact ⟨start, le_refl _, by omega, by simp [hstep]⟩
      | none =>
        rw [hstep] at hb
        obtain ⟨k, hk1, hk2, hk3⟩ := ih (start + 1) b hb
        exact ⟨k, by omega, by omega, hk3⟩
  · cases o with
    | none => simp [monitor_step]
    | some t =>
      simp only [monitor_step]
      constructor
      · intro hc
        refine ⟨t, rfl, fun h1 => ?_, fun h2 => ?_⟩
        · rw [if_pos h1] at hc
          by_cases h2 : strContains t.stopReason "FULL_LOAD_ONLY_FINISHED" = true
          · rw [if_pos h2] at hc; exact Option.noConfusion hc
          · rw [if_neg h2] at hc; exact Option.noConfusion hc
        · by_cases h1 : strLower t.status = "stopped"
          · rw [if_pos h1] at hc
            split at hc <;> exact Option.noConfusion hc
          · rw [if_neg h1, if_pos h2] at hc; exact Option.noConfusion hc
      · rintro ⟨t', ht', h1, h2⟩
        cases Option.some.inj ht'
        rw [if_neg h1, if_neg h2]

/-- C10 witness: with every observation showing a present task with
status `running`, the loop is still polling after five iterations. -/
theorem monitor_loop_unbounded_case :
    monitor_loop (fun _ => some { status := "running", stopReason := "" }) 5 0 = none :=
  (monitor_loop_unbounded (fun _ => some { status := "running", stopReason := "" })).1
    (fun _ => rfl) 5 0

/-- Auxiliary: the re-check loop confirms emptiness exactly when some
scanned check index observes an empty listing. -/
theorem wait_until_empty_any (obs : Nat → Bool) :
    ∀ fuel k, (wait_until_empty obs fuel k).1 = (checkIdxs k fuel).any obs := by
  intro fuel
  induction fuel with
  | zero => intro k; rfl
  | succ n ih =>
    intro k
    simp only [wait_until_empty, checkIdxs, List.any_cons]
    by_cases h : obs k = true
    · simp [h]
    · simp only [Bool.not_eq_true] at h
      simp [h, ih]

/-- Auxiliary: the re-check loop performs at most `fuel` checks beyond
the starting index. -/
theorem wait_until_empty_checks (obs : Nat → Bool) :
    ∀ fuel k, (wait_until_empty obs fuel k).2 ≤ k + fuel := by
  intro fuel
  induction fuel with
  | zero => intro k; simp [wait_until_empty]
  | succ n ih =>
    intro k
    simp only [wait_until_empty]
    by_cases h : obs k = true
    · simp [h]
    · simp only [Bool.not_eq_true] at h
      simp only [h, Bool.false_eq_true, if_false]
      calc (wait_until_empty obs n (k + 1)).2 ≤ (k + 1) + n := ih (k + 1)
        _ = k + (n + 1) := by omega

/-- C6 (amended): each teardown stage runs its verification wait
before its deletes: the wait confirms emptiness exactly when one of
the initial-plus-`W`-loop checks observes an empty listing, performs
at most `W + 1` checks, and the stage then issues its delete calls
whether or not emptiness was confirmed (on timeout it proceeds
anyway); this holds for the task wait of `delete_endpoints` and the
endpoint wait of `delete_replication_instances` alike. -/
theorem teardown_ordering_bounded (taskObs epObs : Nat → Bool) (W : Nat)
    (endpointArns instanceArns : List String) :
    ((delete_endpoints taskObs W endpointArns).confirmed =
        (checkIdxs 0 (W + 1)).any taskObs ∧
      (delete_endpoints taskObs W endpointArns).checks ≤ W + 1 ∧
      (delete_endpoints taskObs W endpointArns).calls =
        endpointArns.map (fun a => AwsCall.deleteEndpoint a)) ∧
    ((delete_replication_instances epObs W instanceArns).confirmed =
        (checkIdxs 0 (W + 1)).any epObs ∧
      (delete_replication_instances epObs W instanceArns).checks ≤ W + 1 ∧
      (delete_replication_instances epObs W instanceArns).calls =
        instanceArns.map (fun a => AwsCall.deleteReplicationInstance a)) := by
  have key : ∀ (obs : Nat → Bool) (deletes : List AwsCall),
      (verify_then_delete obs W deletes).confirmed = (checkIdxs 0 (W + 1)).any obs ∧
      (verify_then_delete obs W deletes).checks ≤ W + 1 ∧
      (verify_then_delete obs W deletes).calls = deletes := by
    intro obs deletes
    by_cases h : obs 0 = true
    · refine ⟨?_, ?_, ?_⟩ <;> simp [verify_then_delete, h, checkIdxs]
    · simp only [Bool.not_eq_true] at h
      refine ⟨?_, ?_, ?_⟩
      · have e : (verify_then_delete obs W deletes).confirmed =
            (wait_until_empty obs W 1).1 := by
          simp [verify_then_delete, h]
        rw [e, wait_until_empty_any obs W 1]
        simp [checkIdxs, h]
      · have e : (verify_then_delete obs W deletes).checks =
            (wait_until_empty obs W 1).2 := by
          simp [verify_then_delete, h]
        rw [e]
        have := wait_until_empty_checks obs W 1
        omega
      · simp [verify_then_delete, h]
  exact ⟨key taskObs _, key epObs _⟩

/-- C6 counterexample: when the replication-task listing is never
observed empty, `delete_endpoints` still issues its `delete_endpoint`
call after the 180-second wait times out, so an endpoint deletion is
issued without the task deletions having been confirmed; likewise for
`delete_replication_instances` against the endpoint listing. -/
theorem teardown_ordering_cex :
    (delete_endpoints (fun _ => false) 12 ["ep-arn-1"]).confirmed = false ∧
    (delete_endpoints (fun _ => false) 12 ["ep-arn-1"]).calls =
      [AwsCall.deleteEndpoint "ep-arn-1"] ∧
    (delete_replication_instances (fun _ => false) 12 ["ri-arn-1"]).confirmed = false ∧
    (delete_replication_instances (fun _ => false) 12 ["ri-arn-1"]).calls =
      [AwsCall.deleteReplicationInstance "ri-arn-1"] := by
  decide


/-- Auxiliary: one polling round performs at most `fuel` polls. -/
theorem poll_round_le (isS3 accept lastRetry : Bool) (obs : Nat → ConnStatus) :
    ∀ fuel k, (poll_round isS3 accept lastRetry obs fuel k).2 ≤ fuel := by
  intro fuel
  induction fuel with
  | zero => intro k; simp [poll_round]
  | succ n ih =>
    intro k
    cases h : obs k with
    | testing =>
      simp only [poll_round, h]
      have := ih (k + 1)
      omega
    | successful => simp [poll_round, h]
    | failed => simp [poll_round, h]
    | deleting => simp [poll_round, h]
    | deleted => simp [poll_round, h]

/-- Auxiliary: when every observation of the round is non-terminal the
round times out. -/
theorem poll_round_timeout (isS3 accept lastRetry : Bool) (obs : Nat → ConnStatus)
    (h : ∀ j, obs j = ConnStatus.testing) :
    ∀ fuel k, (poll_round isS3 accept lastRetry obs fuel k).1 = RoundOutcome.timeout := by
  intro fuel
  induction fuel with
  | zero => intro k; rfl
  | succ n ih =>
    intro k
    simp only [poll_round, h k]
    exact ih (k + 1)

/-- Auxiliary: for a non-S3 endpoint the tolerance flag plays no role
in a polling round. -/
theorem poll_round_nonS3 (accept accept' lastRetry : Bool) (obs : Nat → ConnStatus) :
    ∀ fuel k, poll_round false accept lastRetry obs fuel k =
      poll_round false accept' lastRetry obs fuel k := by
  intro fuel
  induction fuel with
  | zero => intro k; rfl
  | succ n ih =>
    intro k
    cases h : obs k <;> simp [poll_round, h, ih]

/-- Auxiliary: the retry loop performs at most `max_poll_attempts`
polls per round. -/
theorem run_rounds_le (isS3 sk accept : Bool) (obs : Nat → Nat → ConnStatus) :
    ∀ n r, (run_rounds isS3 sk accept obs r n).2 ≤ n * max_poll_attempts := by
  intro n
  induction n with
  | zero => intro r; simp [run_rounds]
  | succ m ih =>
    intro r
    have hpr := poll_round_le isS3 accept (m == 0) (obs r) max_poll_attempts 0
    have hrest := ih (r + 1)
    simp only [run_rounds]
    split
    · simp
    · split
      · simp
      · split <;> simp only [max_poll_attempts] at hpr hrest ⊢ <;> omega

/-- Auxiliary: for a non-S3 endpoint, when every observation is
non-terminal every round times out and the loop finally returns
`false`. -/
theorem run_rounds_testing (sk accept : Bool) (obs : Nat → Nat → ConnStatus)
    (h : ∀ r k, obs r k = ConnStatus.testing) :
    ∀ n r, (run_rounds false sk accept obs r n).1 = false := by
  intro n
  induction n with
  | zero => intro r; rfl
  | succ m ih =>
    intro r
    simp only [run_rounds, Bool.false_and, Bool.false_eq_true, if_false]
    rw [poll_round_timeout false accept (m == 0) (obs r) (h r) max_poll_attempts 0]
    exact ih (r + 1)

/-- Auxiliary: for a non-S3 endpoint the two tolerance flags play no
role in the retry loop. -/
theorem run_rounds_nonS3 (sk accept : Bool) (obs : Nat → Nat → ConnStatus) :
    ∀ n r, run_rounds false sk accept obs r n = run_rounds false false false obs r n := by
  intro n
  induction n with
  | zero => intro r; rfl
  | succ m ih =>
    intro r
    simp only [run_rounds, Bool.false_and, Bool.false_eq_true, if_false]
    rw [poll_round_nonS3 accept false (m == 0) (obs r) max_poll_attempts 0, ih (r + 1)]

/-- C5: with an S3 endpoint, either tolerance flag makes
`test_connection` report success whatever the observed statuses (so a
failed test is non-fatal and the pipeline proceeds); for a non-S3
endpoint the flags are irrelevant to `test_connection`, and in
`DMS.main` a failed source test, or a target test that fails every
attempt on a non-S3 endpoint, aborts the stage whatever the flags,
while an S3 endpoint with the accept flag proceeds. -/
theorem s3_tolerance_policy :
    (∀ (accept : Bool) (mr : Nat) (obs : Nat → Nat → ConnStatus),
      (test_connection true true accept mr obs).1 = true) ∧
    (∀ (sk : Bool) (mr : Nat) (obs : Nat → Nat → ConnStatus),
      (test_connection true sk true mr obs).1 = true) ∧
    (∀ (sk accept : Bool) (mr : Nat) (obs : Nat → Nat → ConnStatus),
      (test_connection false sk accept mr obs).1 =
        (test_connection false false false mr obs).1) ∧
    (∀ accept a1 a2 a3 userYes : Bool,
      dms_main_connection_gates false true accept a1 a2 a3 userYes = false) ∧
    (∀ accept userYes : Bool,
      dms_main_connection_gates true false accept false false false userYes = false) ∧
    (∀ a1 a2 a3 userYes : Bool,
      dms_main_target_section true true a1 a2 a3 userYes = true) := by
  refine ⟨?_, ?_, ?_, ?_, ?_, ?_⟩
  · intro accept mr obs
    simp [test_connection, run_rounds]
  · intro sk mr obs
    cases sk <;> simp [test_connection, run_rounds]
  · intro sk accept mr obs
    rw [test_connection, test_connection, run_rounds_nonS3]
  · intro accept a1 a2 a3 userYes
    rfl
  · intro accept userYes
    cases accept <;> rfl
  · intro a1 a2 a3 userYes
    rfl

/-- C7 (amended): `test_connection` performs at most
`(max_retries + 1) * max_poll_attempts` status polls in total (at most
`max_poll_attempts` per retry round), and when no observation is ever
terminal it returns `False` after exhausting its rounds — the same
value as an explicit connection failure, not a distinct timeout
result. -/
theorem bounded_polling_total (isS3 sk accept : Bool) (mr : Nat)
    (obs : Nat → Nat → ConnStatus) :
    (test_connection isS3 sk accept mr obs).2 ≤ (mr + 1) * max_poll_attempts ∧
    ((∀ r k, obs r k = ConnStatus.testing) → isS3 = false →
      (test_connection isS3 sk accept mr obs).1 = false) := by
  constructor
  · exact run_rounds_le isS3 sk accept obs (mr + 1) 0
  · intro h hS3
    subst hS3
    exact run_rounds_testing sk accept obs h (mr + 1) 0

/-- C7 witness: with the default `max_retries = 2` and observations
that never resolve, the poll count is bounded by `3 * 30` and the
result is `false`. -/
theorem bounded_polling_total_case :
    (test_connection false false false 2 (fun _ _ => ConnStatus.testing)).2 ≤
      (2 + 1) * max_poll_attempts ∧
    (test_connection false false false 2 (fun _ _ => ConnStatus.testing)).1 = false :=
  ⟨(bounded_polling_total false false false 2 (fun _ _ => ConnStatus.testing)).1,
   (bounded_polling_total false false false 2 (fun _ _ => ConnStatus.testing)).2
     (fun _ _ => rfl) rfl⟩

/-- C7 counterexample: with the default `max_retries = 2`, a
never-resolving connection test performs 90 status polls — three times
the configured `max_poll_attempts = 30` — before returning, and the
value it returns on timeout equals the value returned on an explicit
`failed` status, so the timeout result is not distinct from the
explicit-failure result. -/
theorem bounded_polling_cex :
    (test_connection false false false 2 (fun _ _ => ConnStatus.testing)).2 = 90 ∧
    ¬ ((test_connection false false false 2 (fun _ _ => ConnStatus.testing)).2 ≤
        max_poll_attempts) ∧
    (test_connection false false false 2 (fun _ _ => ConnStatus.testing)).1 =
      (test_connection false false false 2 (fun _ _ => ConnStatus.failed)).1 := by
  decide


/-- Auxiliary: updating a key makes it present with the new value. -/
theorem find_updateEntry_self (m : ResourceRecord) (k : String) (v : Option String) :
    (updateEntry m k v).find? (fun q => q.1 = k) = some (k, v) := by
  induction m with
  | nil => simp [updateEntry]
  | cons p rest ih =>
    obtain ⟨pk, pv⟩ := p
    by_cases h : pk = k
    · simp [updateEntry, h]
    · simp [updateEntry, h, ih]

/-- Auxiliary: updating one key leaves lookups of a different key
unchanged. -/
theorem find_updateEntry_ne (m : ResourceRecord) (ku kq : String) (v : Option String)
    (h : ku ≠ kq) :
    (updateEntry m ku v).find? (fun q => q.1 = kq) = m.find? (fun q => q.1 = kq) := by
  induction m with
  | nil => simp [updateEntry, h]
  | cons p rest ih =>
    obtain ⟨pk, pv⟩ := p
    by_cases hp : pk = ku
    · subst hp
      simp [updateEntry, h]
    · simp only [updateEntry, hp, if_false]
      by_cases hq : pk = kq
      · simp [hq]
      · simp [hq, ih]

/-- Auxiliary: a record update whose keys all differ from the queried
key leaves its lookup unchanged. -/
theorem find_updateRecord_ne :
    ∀ (upd m : ResourceRecord) (kq : String), (∀ kv ∈ upd, kv.1 ≠ kq) →
      (updateRecord m upd).find? (fun q => q.1 = kq) = m.find? (fun q => q.1 = kq)
  | [], _, _, _ => rfl
  | kv :: rest, m, kq, h => by
    have h1 : kv.1 ≠ kq := h kv (by simp)
    have h2 : ∀ x ∈ rest, x.1 ≠ kq := fun x hx => h x (by simp [hx])
    show (updateRecord (updateEntry m kv.1 kv.2) rest).find? _ = _
    rw [find_updateRecord_ne rest (updateEntry m kv.1 kv.2) kq h2,
        find_updateEntry_ne m kv.1 kq kv.2 h1]

/-- Auxiliary: after `setResource` the resource type is present and
holds its previous record (or the empty one) updated. -/
theorem find_setResource_self (rs : List (String × ResourceRecord)) (rt : String)
    (upd : ResourceRecord) :
    (setResource rs rt upd).find? (fun p => p.1 = rt) =
      some (rt, updateRecord (oldRecOf rs rt) upd) := by
  induction rs with
  | nil => simp [setResource, oldRecOf]
  | cons p rest ih =>
    obtain ⟨pk, rec⟩ := p
    by_cases h : pk = rt
    · simp [setResource, h, oldRecOf]
    · simp [setResource, h, oldRecOf, ih]

/-- Auxiliary: a resource-record lookup after `update_resource_data`
is a lookup in the updated record. -/
theorem get_update_resource (now rt k : String) (upd : ResourceRecord)
    (file : LedgerFile) :
    get_resource_data (update_resource_data now (.resource rt upd) file) rt k =
      (match (updateRecord (oldRecOf (load_run_data file).resources rt) upd).find?
          (fun q => q.1 = k) with
        | none => none
        | some q => q.2) := by
  simp only [get_resource_data, update_resource_data, save_run_data,
    find_setResource_self]

/-- Auxiliary: `update_resource_data` leaves every key it does not
mention unchanged. -/
theorem get_update_resource_other (now rt k : String) (upd : ResourceRecord)
    (file : LedgerFile) (h : ∀ kv ∈ upd, kv.1 ≠ k) :
    get_resource_data (update_resource_data now (.resource rt upd) file) rt k =
      get_resource_data (load_run_data file) rt k := by
  rw [get_update_resource now rt k upd file,
      find_updateRecord_ne upd (oldRecOf (load_run_data file).resources rt) k h]
  unfold oldRecOf get_resource_data
  cases hf : (load_run_data file).resources.find? (fun p => p.1 = rt) with
  | none => rfl
  | some p => rfl

/-- Auxiliary: the desired S3 settings never differ from themselves. -/
theorem settingsDiffer_s3Settings_self (bucket roleArn : String) :
    settingsDiffer (s3Settings bucket roleArn) (s3Settings bucket roleArn) = false := by
  simp [settingsDiffer, s3Settings, lookupKV]

/-- Auxiliary: reconciling a described endpoint whose settings already
match the desired ones reuses it with no mutating call. -/
theorem reconcile_on_clean (modifyOk : Bool) (desired : List (String × String))
    (endpoint_id : String) (e : DmsEndpoint)
    (h : settingsDiffer e.settings desired = false) :
    reconcileTargetEndpoint modifyOk desired endpoint_id (some e) = (e.arn, [], e) := by
  simp [reconcileTargetEndpoint, h]

/-- Auxiliary: the endpoint left behind by the reconcile step matches
the desired settings, and the returned ARN is its ARN. -/
theorem reconcile_result_clean (modifyOk : Bool) (bucket roleArn endpoint_id : String)
    (ep : Option DmsEndpoint) :
    settingsDiffer
        (reconcileTargetEndpoint modifyOk (s3Settings bucket roleArn) endpoint_id ep).2.2.settings
        (s3Settings bucket roleArn) = false ∧
    (reconcileTargetEndpoint modifyOk (s3Settings bucket roleArn) endpoint_id ep).1 =
      (reconcileTargetEndpoint modifyOk (s3Settings bucket roleArn) endpoint_id ep).2.2.arn := by
  cases ep with
  | none => simp [reconcileTargetEndpoint, settingsDiffer_s3Settings_self]
  | some e =>
    by_cases h : settingsDiffer e.settings (s3Settings bucket roleArn) = true
    · cases modifyOk <;>
        simp [reconcileTargetEndpoint, h, settingsDiffer_s3Settings_self]
    · simp only [Bool.not_eq_true] at h
      simp [reconcileTargetEndpoint, h]

/-- Auxiliary: with a non-empty bucket name the bucket check succeeds
and leaves the bucket and folder object in place. -/
theorem check_s3_bucket_exists_ok (bucket : String) (s3 : S3State) (h : bucket ≠ "") :
    (check_s3_bucket_exists bucket s3).ok = true ∧
    (check_s3_bucket_exists bucket s3).s3 =
      { bucketExists := true, folderObjectExists := true } := by
  obtain ⟨be, fe⟩ := s3
  cases be <;> cases fe <;> simp [check_s3_bucket_exists, h]

/-- Auxiliary: the bucket check on a bucket that exists with its
folder object makes no call. -/
theorem check_s3_bucket_exists_clean (bucket : String) (h : bucket ≠ "") :
    check_s3_bucket_exists bucket { bucketExists := true, folderObjectExists := true } =
      { ok := true, s3 := { bucketExists := true, folderObjectExists := true },
        calls := [] } := by
  simp [check_s3_bucket_exists, h]

/-- Auxiliary: the remote S3 state after `create_target_endpoint` has
the bucket and folder object in place. -/
theorem cte_s3_after (now bucket roleArn : String) (modifyOk : Bool) (s3 : S3State)
    (ep : Option DmsEndpoint) (file : LedgerFile) (hb : bucket ≠ "") (hr : roleArn ≠ "") :
    (create_target_endpoint now bucket roleArn modifyOk s3 ep file).s3 =
      { bucketExists := true, folderObjectExists := true } := by
  have hguard : ¬(bucket = "" ∨ roleArn = "") := by
    rintro (h | h)
    exacts [hb h, hr h]
  obtain ⟨hok, hs3⟩ := check_s3_bucket_exists_ok bucket s3 hb
  simp [create_target_endpoint, hguard, hok, hs3]

/-- Auxiliary: the endpoint left behind by `create_target_endpoint` is
the one the reconcile step produces, and the returned ARN is its
ARN. -/
theorem cte_ep_after (now bucket roleArn : String) (modifyOk : Bool) (s3 : S3State)
    (ep : Option DmsEndpoint) (file : LedgerFile) (hb : bucket ≠ "") (hr : roleArn ≠ "") :
    (create_target_endpoint now bucket roleArn modifyOk s3 ep file).ep =
      some (reconcileTargetEndpoint modifyOk (s3Settings bucket roleArn)
        "mforbush-s3-target" ep).2.2 ∧
    (create_target_endpoint now bucket roleArn modifyOk s3 ep file).arn =
      some (reconcileTargetEndpoint modifyOk (s3Settings bucket roleArn)
        "mforbush-s3-target" ep).1 := by
  have hguard : ¬(bucket = "" ∨ roleArn = "") := by
    rintro (h | h)
    exacts [hb h, hr h]
  obtain ⟨hok, _⟩ := check_s3_bucket_exists_ok bucket s3 hb
  constructor <;> simp [create_target_endpoint, hguard, hok]

/-- Auxiliary: the two ledger keys written by the target-endpoint
reconciler differ from `replication_instance_arn`. -/
theorem cte_upd_keys (eid arn : String) :
    ∀ kv ∈ [("target_endpoint_id", some eid), ("target_endpoint_arn", some arn)],
      (kv : String × Option String).1 ≠ "replication_instance_arn" := by
  intro kv hkv
  rcases List.mem_cons.mp hkv with rfl | h2
  · simp
  · rcases List.mem_cons.mp h2 with rfl | h3
    · simp
    · cases h3

/-- Auxiliary: `create_target_endpoint` never writes the
`replication_instance_arn` ledger key. -/
theorem cte_ledger_ria (now bucket roleArn : String) (modifyOk : Bool) (s3 : S3State)
    (ep : Option DmsEndpoint) (file : LedgerFile) (hb : bucket ≠ "") (hr : roleArn ≠ "")
    (hnone : get_resource_data (load_run_data file) "dms" "replication_instance_arn" = none) :
    get_resource_data (create_target_endpoint now bucket roleArn modifyOk s3 ep file).ledger
      "dms" "replication_instance_arn" = none := by
  have hguard : ¬(bucket = "" ∨ roleArn = "") := by
    rintro (h | h)
    exacts [hb h, hr h]
  obtain ⟨hok, _⟩ := check_s3_bucket_exists_ok bucket s3 hb
  have e : (create_target_endpoint now bucket roleArn modifyOk s3 ep file).ledger =
      update_resource_data now
        (.resource "dms" [("target_endpoint_id", some "mforbush-s3-target"),
          ("target_endpoint_arn",
            some (reconcileTargetEndpoint modifyOk (s3Settings bucket roleArn)
              "mforbush-s3-target" ep).1)]) file := by
    simp [create_target_endpoint, hguard, hok]
  rw [e, get_update_resource_other _ _ _ _ _ (cte_upd_keys _ _)]
  exact hnone

/-- Auxiliary: a repeated `create_target_endpoint` against the state
it left behind issues no mutating call and returns the ARN of the
endpoint in place. -/
theorem cte_second_run (now bucket roleArn : String) (modifyOk : Bool) (e : DmsEndpoint)
    (file : LedgerFile) (hb : bucket ≠ "") (hr : roleArn ≠ "")
    (hclean : settingsDiffer e.settings (s3Settings bucket roleArn) = false)
    (hnone : get_resource_data (load_run_data file) "dms" "replication_instance_arn" = none) :
    (create_target_endpoint now bucket roleArn modifyOk
        { bucketExists := true, folderObjectExists := true } (some e) file).calls = [] ∧
    (create_target_endpoint now bucket roleArn modifyOk
        { bucketExists := true, folderObjectExists := true } (some e) file).arn =
      some e.arn := by
  have hguard : ¬(bucket = "" ∨ roleArn = "") := by
    rintro (h | h)
    exacts [hb h, hr h]
  have hconn : get_resource_data
      (update_resource_data now
        (.resource "dms" [("target_endpoint_id", some "mforbush-s3-target"),
          ("target_endpoint_arn", some e.arn)]) file)
      "dms" "replication_instance_arn" = none := by
    rw [get_update_resource_other _ _ _ _ _ (cte_upd_keys _ _)]
    exact hnone
  constructor <;>
    simp [create_target_endpoint, hguard, check_s3_bucket_exists_clean bucket hb,
      reconcile_on_clean modifyOk _ _ e hclean, hconn]

/-- C2 (amended): re-invoking a reconciler on the state it left behind
with the same desired-state descriptor issues zero remote mutating
calls and returns the same identifier, provided the derived resource
name is unchanged: for `create_rds_instance` the two invocations must
observe the same `%H-%M` wall-clock value (the instance identifier
embeds it), and for `create_target_endpoint` the ledger must hold no
`replication_instance_arn` (otherwise the embedded post-setup
connection test issues `delete_connection` calls on every
invocation). -/
theorem second_invocation_no_mutation :
    (∀ now now' profile time remote file,
      (create_rds_instance now' profile time
          (create_rds_instance now profile time remote file).remote
          (.parsed (create_rds_instance now profile time remote file).ledger)).calls = [] ∧
      (create_rds_instance now' profile time
          (create_rds_instance now profile time remote file).remote
          (.parsed (create_rds_instance now profile time remote file).ledger)).ident =
        (create_rds_instance now profile time remote file).ident) ∧
    (∀ now now' bucket roleArn modifyOk modifyOk' s3 ep file,
      bucket ≠ "" → roleArn ≠ "" →
      get_resource_data (load_run_data file) "dms" "replication_instance_arn" = none →
      (create_target_endpoint now' bucket roleArn modifyOk'
          (create_target_endpoint now bucket roleArn modifyOk s3 ep file).s3
          (create_target_endpoint now bucket roleArn modifyOk s3 ep file).ep
          (.parsed (create_target_endpoint now bucket roleArn modifyOk s3 ep file).ledger)).calls
        = [] ∧
      (create_target_endpoint now' bucket roleArn modifyOk'
          (create_target_endpoint now bucket roleArn modifyOk s3 ep file).s3
          (create_target_endpoint now bucket roleArn modifyOk s3 ep file).ep
          (.parsed (create_target_endpoint now bucket roleArn modifyOk s3 ep file).ledger)).arn =
        (create_target_endpoint now bucket roleArn modifyOk s3 ep file).arn) := by
  constructor
  · intro now now' profile time remote file
    by_cases h : (profile ++ "-mssql-source-" ++ time) ∈ remote
    · constructor <;> simp [create_rds_instance, h]
    · constructor <;> simp [create_rds_instance, h]
  · intro now now' bucket roleArn modifyOk modifyOk' s3 ep file hb hr hnone
    obtain ⟨hclean, harnE⟩ :=
      reconcile_result_clean modifyOk bucket roleArn "mforbush-s3-target" ep
    obtain ⟨hep, harn⟩ :=
      cte_ep_after now bucket roleArn modifyOk s3 ep file hb hr
    have hria := cte_ledger_ria now bucket roleArn modifyOk s3 ep file hb hr hnone
    have hnone2 : get_resource_data
        (load_run_data
          (.parsed (create_target_endpoint now bucket roleArn modifyOk s3 ep file).ledger))
        "dms" "replication_instance_arn" = none := hria
    rw [cte_s3_after now bucket roleArn modifyOk s3 ep file hb hr, hep]
    obtain ⟨hc2, ha2⟩ := cte_second_run now' bucket roleArn modifyOk'
      (reconcileTargetEndpoint modifyOk (s3Settings bucket roleArn) "mforbush-s3-target" ep).2.2
      (.parsed (create_target_endpoint now bucket roleArn modifyOk s3 ep file).ledger)
      hb hr hclean hnone2
    refine ⟨hc2, ?_⟩
    rw [ha2, harn, harnE]

/-- C2 witness: a concrete second target-endpoint invocation against
the state left by the first, with no replication-instance ARN in the
ledger, issues no mutating call and returns the first invocation's
ARN. -/
theorem second_invocation_no_mutation_case :
    (create_target_endpoint "T2" "bkt" "role-arn" true
        (create_target_endpoint "T1" "bkt" "role-arn" true
          { bucketExists := false, folderObjectExists := false } none .absent).s3
        (create_target_endpoint "T1" "bkt" "role-arn" true
          { bucketExists := false, folderObjectExists := false } none .absent).ep
        (.parsed (create_target_endpoint "T1" "bkt" "role-arn" true
          { bucketExists := false, folderObjectExists := false } none .absent).ledger)).calls
      = [] ∧
    (create_target_endpoint "T2" "bkt" "role-arn" true
        (create_target_endpoint "T1" "bkt" "role-arn" true
          { bucketExists := false, folderObjectExists := false } none .absent).s3
        (create_target_endpoint "T1" "bkt" "role-arn" true
          { bucketExists := false, folderObjectExists := false } none .absent).ep
        (.parsed (create_target_endpoint "T1" "bkt" "role-arn" true
          { bucketExists := false, folderObjectExists := false } none .absent).ledger)).arn =
      (create_target_endpoint "T1" "bkt" "role-arn" true
        { bucketExists := false, folderObjectExists := false } none .absent).arn :=
  second_invocation_no_mutation.2 "T1" "T2" "bkt" "role-arn" true true
    { bucketExists := false, folderObjectExists := false } none .absent
    (by decide) (by decide) (by decide)


/-- C2 counterexample: `create_rds_instance` invoked a second time
with an unchanged descriptor but one wall-clock minute later issues a
fresh `create_db_instance` (a remote mutating call) and returns a
different identifier; and a second `create_target_endpoint` invocation
with a replication-instance ARN recorded in the ledger issues a
`delete_connection` call (a remote mutating delete). -/
theorem second_invocation_cex :
    ((create_rds_instance "T2" "mforbush" "10-01"
        (create_rds_instance "T1" "mforbush" "10-00" [] .absent).remote
        (.parsed (create_rds_instance "T1" "mforbush" "10-00" [] .absent).ledger)).calls ≠ [] ∧
     (create_rds_instance "T2" "mforbush" "10-01"
        (create_rds_instance "T1" "mforbush" "10-00" [] .absent).remote
        (.parsed (create_rds_instance "T1" "mforbush" "10-00" [] .absent).ledger)).ident ≠
       (create_rds_instance "T1" "mforbush" "10-00" [] .absent).ident) ∧
    (create_target_endpoint "T2" "bkt" "role-arn" true
        (create_target_endpoint "T1" "bkt" "role-arn" true
          { bucketExists := false, folderObjectExists := false } none
          (.parsed (RunData.mk none [("dms", [("replication_instance_arn", some "ri-arn")])]))).s3
        (create_target_endpoint "T1" "bkt" "role-arn" true
          { bucketExists := false, folderObjectExists := false } none
          (.parsed (RunData.mk none [("dms", [("replication_instance_arn", some "ri-arn")])]))).ep
        (.parsed (create_target_endpoint "T1" "bkt" "role-arn" true
          { bucketExists := false, folderObjectExists := false } none
          (.parsed (RunData.mk none [("dms", [("replication_instance_arn", some "ri-arn")])]))).ledger)).calls
      ≠ [] := by
  decide

/-- C3 counterexample: when the resource already exists remotely, the
reuse paths of `create_replication_instance` and `create_s3_bucket`
return the identifier successfully but write nothing to the ledger, so
the identifier is not retrievable from the ledger afterwards. -/
theorem ledger_reuse_no_write :
    (create_replication_instance "2025-07-01T00:00:00" "mforbush"
        [("mforbush-dms-instance", "arn-A")] .absent).arn = some "arn-A" ∧
    get_resource_data
      (create_replication_instance "2025-07-01T00:00:00" "mforbush"
        [("mforbush-dms-instance", "arn-A")] .absent).ledger
      "dms" "replication_instance_arn" = none ∧
    (create_s3_bucket "2025-07-01T00:00:00" "123456789012" "us-east-1"
        ["dms-target-123456789012-us-east-1"] .absent).bucket =
      some "dms-target-123456789012-us-east-1" ∧
    get_resource_data
      (create_s3_bucket "2025-07-01T00:00:00" "123456789012" "us-east-1"
        ["dms-target-123456789012-us-east-1"] .absent).ledger "s3" "bucket_name" = none := by
  decide

/-- C3 (amended): the reconcilers persist the identifier to the ledger
before returning only on their creation paths — after a creating run
of `create_replication_instance` or `create_s3_bucket` the identifier
is retrievable from the reloaded persisted ledger — while their reuse
paths return the existing identifier with the persisted ledger
unchanged. -/
theorem ledger_persist_paths (now profile accountId region : String)
    (remote : List (String × String)) (buckets : List String) (file file' : LedgerFile) :
    (remote.find? (fun p => p.1 = profile ++ "-dms-instance") = none →
      (create_replication_instance now profile remote file).arn =
        some (replInstanceArnOf (profile ++ "-dms-instance")) ∧
      get_resource_data
        (load_run_data (.parsed (create_replication_instance now profile remote file).ledger))
        "dms" "replication_instance_arn" =
        some (replInstanceArnOf (profile ++ "-dms-instance")) ∧
      get_resource_data
        (load_run_data (.parsed (create_replication_instance now profile remote file).ledger))
        "dms" "replication_instance_id" = some (profile ++ "-dms-instance")) ∧
    (∀ q, remote.find? (fun p => p.1 = profile ++ "-dms-instance") = some q →
      (create_replication_instance now profile remote file).arn = some q.2 ∧
      (create_replication_instance now profile remote file).ledger = load_run_data file) ∧
    (("dms-target-" ++ accountId ++ "-" ++ region) ∉ buckets →
      (create_s3_bucket now accountId region buckets file').bucket =
        some ("dms-target-" ++ accountId ++ "-" ++ region) ∧
      get_resource_data
        (load_run_data (.parsed (create_s3_bucket now accountId region buckets file').ledger))
        "s3" "bucket_name" = some ("dms-target-" ++ accountId ++ "-" ++ region)) ∧
    (("dms-target-" ++ accountId ++ "-" ++ region) ∈ buckets →
      (create_s3_bucket now accountId region buckets file').bucket =
        some ("dms-target-" ++ accountId ++ "-" ++ region) ∧
      (create_s3_bucket now accountId region buckets file').ledger = load_run_data file') := by
  refine ⟨fun h => ?_, fun q hq => ?_, fun h => ?_, fun h => ?_⟩
  · have e : (create_replication_instance now profile remote file).ledger =
        update_resource_data now
          (.resource "dms"
            [("replication_instance_id", some (profile ++ "-dms-instance")),
             ("replication_instance_arn",
               some (replInstanceArnOf (profile ++ "-dms-instance")))]) file := by
      simp [create_replication_instance, h]
    refine ⟨by simp [create_replication_instance, h], ?_, ?_⟩
    · simp only [load_run_data]
      rw [e, get_update_resource]
      simp only [updateRecord, List.foldl_cons, List.foldl_nil]
      rw [find_updateEntry_self]
    · simp only [load_run_data]
      rw [e, get_update_resource]
      simp only [updateRecord, List.foldl_cons, List.foldl_nil]
      rw [find_updateEntry_ne _ _ _ _ (by simp), find_updateEntry_self]
  · constructor <;> simp [create_replication_instance, hq]
  · have e : (create_s3_bucket now accountId region buckets file').ledger =
        update_resource_data now
          (.resource "s3"
            [("bucket_name", some ("dms-target-" ++ accountId ++ "-" ++ region))]) file' := by
      simp [create_s3_bucket, h]
    refine ⟨by simp [create_s3_bucket, h], ?_⟩
    simp only [load_run_data]
    rw [e, get_update_resource]
    simp only [updateRecord, List.foldl_cons, List.foldl_nil]
    rw [find_updateEntry_self]
  · constructor <;> simp [create_s3_bucket, h]

/-- C3 witness: the create paths leave the identifiers retrievable
from the reloaded ledger, and the reuse paths leave the persisted
ledger unchanged, at concrete inputs. -/
theorem ledger_persist_paths_case :
    get_resource_data
      (load_run_data (.parsed (create_replication_instance "T" "mforbush" [] .absent).ledger))
      "dms" "replication_instance_arn" =
      some (replInstanceArnOf ("mforbush" ++ "-dms-instance")) ∧
    (create_replication_instance "T" "mforbush"
      [("mforbush-dms-instance", "arn-A")] .absent).ledger = load_run_data .absent ∧
    get_resource_data
      (load_run_data (.parsed (create_s3_bucket "T" "123" "us-east-1" [] .absent).ledger))
      "s3" "bucket_name" = some ("dms-target-" ++ "123" ++ "-" ++ "us-east-1") ∧
    (create_s3_bucket "T" "123" "us-east-1" ["dms-target-123-us-east-1"] .absent).ledger =
      load_run_data .absent :=
  ⟨((ledger_persist_paths "T" "mforbush" "123" "us-east-1" [] [] .absent .absent).1
      rfl).2.1,
   ((ledger_persist_paths "T" "mforbush" "123" "us-east-1"
      [("mforbush-dms-instance", "arn-A")] [] .absent .absent).2.1
      ("mforbush-dms-instance", "arn-A") (by decide)).2,
   ((ledger_persist_paths "T" "mforbush" "123" "us-east-1" [] [] .absent .absent).2.2.1
      (by decide)).2,
   ((ledger_persist_paths "T" "mforbush" "123" "us-east-1" []
      ["dms-target-123-us-east-1"] .absent .absent).2.2.2 (by decide)).2⟩

end DmsPipeline
